import Mathlib

/-!
Verification of the token-validation core of `actix_jwt` (`src/auth.rs`).

The repository's `validator` builds a per-request closure over an immutable
`jsonwebtoken::Validation` policy and a `HashMap<String, DecodingKey>` key
store; the closure calls `v`, which

1. parses the token header (`jsonwebtoken::decode_header`), mapping failure
   to `ErrorBadRequest "bad token"`;
2. extracts `kid`, mapping absence to `ErrorBadRequest "token missing kid"`;
3. looks `kid` up in the store, mapping absence to
   `ErrorBadRequest "invalid kid in token"`;
4. runs `jsonwebtoken::decode::<Claims>` with the located key and the
   policy, mapping any failure to `ErrorUnauthorized "invalid token"`, and
   on success returns the request unchanged.

The embedding below models the token symbolically: a raw token either fails
structural header parsing (`malformed`) or consists of a header, a payload
(a partial JSON record with optional `exp`/`nbf`/`iss` fields) and a
signature.  Signatures are modelled in the standard symbolic-crypto way: a
signature records the key pair that produced it, the algorithm used, and
the exact message (header and payload) it signs; verification succeeds
exactly when the key pair, algorithm and message match.  The behaviour of
`jsonwebtoken` v7's `decode` and claim validation, as invoked by the
repository, is embedded directly (algorithm-allow-list check, signature
verification under the header's algorithm, typed deserialization requiring
all three `Claims` fields, then `exp`/`nbf`/`iss` checks against the
policy).  The `aud`/`sub` checks of the library are omitted: the repository
never sets them (`Validation::new` leaves them `None`).  The current time
is passed explicitly.  `u64` arithmetic on timestamps is modelled with
truncated natural subtraction.
-/

namespace ActixJwt

/-- Signing algorithms (the repository uses `RS256`; further constructors
represent other members of `jsonwebtoken::Algorithm`). -/
inductive Algorithm where
  | RS256
  | RS384
  | HS256
deriving DecidableEq, Repr

/-- The decoded JOSE header: the self-declared algorithm and the optional
key id, as in `jsonwebtoken::Header`. -/
structure Header where
  alg : Algorithm
  kid : Option String
deriving DecidableEq, Repr

/-- The token payload viewed as a partial JSON record: each of the three
fields consumed by the core may be present or absent. -/
structure Payload where
  exp : Option Nat
  nbf : Option Nat
  iss : Option String
deriving DecidableEq, Repr

/-- Symbolic signature: the key pair that produced it, the algorithm it was
produced under, and the exact message (header and payload) it signs. -/
structure Signature where
  pairId : Nat
  alg : Algorithm
  header : Header
  payload : Payload
deriving DecidableEq, Repr

/-- A raw bearer-token string: either it fails structural parsing of the
header (wrong segment count, bad base64 or JSON), or it is a well-formed
three-segment token with a header, payload and signature. -/
inductive RawToken where
  | malformed (s : String)
  | parsed (header : Header) (payload : Payload) (sig : Signature)
deriving DecidableEq, Repr

/-- A verification (public) key, identified by the key pair it belongs to,
as in `jsonwebtoken::DecodingKey`. -/
structure DecodingKey where
  pairId : Nat
deriving DecidableEq, Repr

/-- A signing (private) key, identified by the key pair it belongs to, as
in `jsonwebtoken::EncodingKey`. -/
structure EncodingKey where
  pairId : Nat
deriving DecidableEq, Repr

/-- The typed claims struct of `src/auth.rs`: all three fields are required
for deserialization to succeed. -/
structure Claims where
  exp : Nat
  nbf : Nat
  iss : String
deriving DecidableEq, Repr

/-- The validation policy, as in `jsonwebtoken::Validation` (the `aud` and
`sub` checks are omitted: the repository leaves them unset). -/
structure Validation where
  leeway : Nat
  validate_exp : Bool
  validate_nbf : Bool
  iss : Option String
  algorithms : List Algorithm
deriving DecidableEq, Repr

/-- `jsonwebtoken::Validation::new`: leeway 0, `exp` validated, `nbf` not
validated, no required issuer, exactly the given algorithm allowed. -/
def Validation.new (alg : Algorithm) : Validation :=
  { leeway := 0, validate_exp := true, validate_nbf := false,
    iss := none, algorithms := [alg] }

/-- Error kinds produced by the embedded `jsonwebtoken` operations. -/
inductive JwtErrorKind where
  | InvalidToken
  | InvalidAlgorithm
  | InvalidSignature
  | ExpiredSignature
  | ImmatureSignature
  | InvalidIssuer
  | JsonError
deriving DecidableEq, Repr

/-- Successful decode result, as in `jsonwebtoken::TokenData`. -/
structure TokenData where
  header : Header
  claims : Claims
deriving DecidableEq, Repr

/-- The errors `v` returns to actix: a client-error (`ErrorBadRequest`) or
an authentication-failure (`ErrorUnauthorized`) response, each carrying its
message. -/
inductive AppError where
  | badRequest (msg : String)
  | unauthorized (msg : String)
deriving DecidableEq, Repr

/-- Rust's `Result::map_err`. -/
def map_err (f : ε → ε') : Except ε α → Except ε' α
  | .error e => .error (f e)
  | .ok a => .ok a

/-- `jsonwebtoken::decode_header`: structural parse of the header only,
without verifying the signature. -/
def decode_header : RawToken → Except JwtErrorKind Header
  | .malformed _ => .error .InvalidToken
  | .parsed h _ _ => .ok h

/-- Signature verification: the signature bytes verify against this exact
message under this key and algorithm. -/
def verify (sig : Signature) (h : Header) (p : Payload) (key : DecodingKey)
    (alg : Algorithm) : Bool :=
  sig.pairId == key.pairId && sig.alg == alg && sig.header == h
    && sig.payload == p

/-- Typed deserialization of the payload into `Claims`: fails unless all
three required fields are present. -/
def deserialize_claims (p : Payload) : Except JwtErrorKind Claims :=
  match p.exp, p.nbf, p.iss with
  | some e, some n, some i => .ok ⟨e, n, i⟩
  | _, _, _ => .error .JsonError

/-- The `exp` check of `jsonwebtoken`'s claim validation: when required,
the claim must be present and satisfy `now - leeway ≤ exp`. -/
def check_exp (p : Payload) (options : Validation) (now : Nat) :
    Except JwtErrorKind Unit :=
  if options.validate_exp then
    match p.exp with
    | some exp =>
        if exp < now - options.leeway then .error .ExpiredSignature
        else .ok ()
    | none => .error .ExpiredSignature
  else .ok ()

/-- The `nbf` check of `jsonwebtoken`'s claim validation: when required,
the claim must be present and satisfy `nbf ≤ now + leeway`. -/
def check_nbf (p : Payload) (options : Validation) (now : Nat) :
    Except JwtErrorKind Unit :=
  if options.validate_nbf then
    match p.nbf with
    | some nbf =>
        if nbf > now + options.leeway then .error .ImmatureSignature
        else .ok ()
    | none => .error .ImmatureSignature
  else .ok ()

/-- The `iss` check of `jsonwebtoken`'s claim validation: when the policy
names an issuer, the claim must be present and equal it exactly. -/
def check_iss (p : Payload) (options : Validation) :
    Except JwtErrorKind Unit :=
  match options.iss with
  | some correct =>
    match p.iss with
    | some i => if i = correct then .ok () else .error .InvalidIssuer
    | none => .error .InvalidIssuer
  | none => .ok ()

/-- Claim validation against the policy: `exp`, then `nbf`, then `iss`,
each short-circuiting. -/
def validate_claims (p : Payload) (options : Validation) (now : Nat) :
    Except JwtErrorKind Unit :=
  match check_exp p options now with
  | .error e => .error e
  | .ok _ =>
    match check_nbf p options now with
    | .error e => .error e
    | .ok _ => check_iss p options

/-- `jsonwebtoken::decode::<Claims>`, as invoked by `v`: structural parse,
algorithm-allow-list check against the policy, signature verification,
typed deserialization, then claim validation. -/
def decode (token : RawToken) (key : DecodingKey) (validation : Validation)
    (now : Nat) : Except JwtErrorKind TokenData :=
  match token with
  | .malformed _ => .error .InvalidToken
  | .parsed h p sig =>
    if h.alg ∈ validation.algorithms then
      if verify sig h p key h.alg then
        match deserialize_claims p with
        | .error e => .error e
        | .ok claims =>
          match validate_claims p validation now with
          | .error e => .error e
          | .ok _ => .ok ⟨h, claims⟩
      else .error .InvalidSignature
    else .error .InvalidAlgorithm

/-- `jsonwebtoken::encode`, as used by the repository's tests: a well-formed
token whose signature is produced by the given private key, under the
header's algorithm, over exactly this header and payload. -/
def claims_to_payload (c : Claims) : Payload :=
  ⟨some c.exp, some c.nbf, some c.iss⟩

/-- Encode a token: header, serialized claims, and a signature by `key`
over the header and payload under the header's algorithm. -/
def encode (h : Header) (claims : Claims) (key : EncodingKey) : RawToken :=
  .parsed h (claims_to_payload claims)
    ⟨key.pairId, h.alg, h, claims_to_payload claims⟩

/-- The function `v` of `src/auth.rs`, with the request abstracted over its
type and the current time explicit.  Each `?` of the Rust source becomes a
`match` that propagates the mapped error. -/
def v {Req : Type} (validation : Validation)
    (jwks : List (String × DecodingKey)) (req : Req) (token : RawToken)
    (now : Nat) : Except AppError Req :=
  match map_err (fun _ => AppError.badRequest "bad token")
      (decode_header token) with
  | .error e => .error e
  | .ok header =>
    match header.kid with
    | none => .error (.badRequest "token missing kid")
    | some kid =>
      match jwks.lookup kid with
      | none => .error (.badRequest "invalid kid in token")
      | some key =>
        match decode token key validation now with
        | .error _ => .error (.unauthorized "invalid token")
        | .ok _ => .ok req

/-- The closure built by `validator` in `src/auth.rs`: it captures the
policy and the key store by value and calls `v` on each request. -/
def validator {Req : Type} (validation : Validation)
    (jwks : List (String × DecodingKey)) :
    Req → RawToken → Nat → Except AppError Req :=
  fun req token now => v validation jwks req token now

/-- The immutable state a `validator` closure captures; threading it
explicitly through calls makes the absence of mutation provable. -/
structure ValidatorState where
  validation : Validation
  jwks : List (String × DecodingKey)

/-- One invocation of the closure built by `validator`, with its captured
state threaded explicitly: the call returns the verdict together with the
state it leaves behind. -/
def call_validator {Req : Type} (s : ValidatorState) (req : Req)
    (token : RawToken) (now : Nat) :
    Except AppError Req × ValidatorState :=
  (v s.validation s.jwks req token now, s)

end ActixJwt

namespace ActixJwt

/-- Stepping lemma: once the header parses and the kid resolves to a key,
`v` is decided by `decode`. -/
theorem v_parsed_step {Req : Type} (validation : Validation)
    (jwks : List (String × DecodingKey)) (req : Req) (hd : Header)
    (p : Payload) (sig : Signature) (now : Nat) (kid : String)
    (key : DecodingKey) (hkid : hd.kid = some kid)
    (hstore : jwks.lookup kid = some key) :
    v validation jwks req (.parsed hd p sig) now
      = match decode (.parsed hd p sig) key validation now with
        | .error _ => .error (.unauthorized "invalid token")
        | .ok _ => .ok req := by
  unfold v
  simp only [decode_header, map_err, hkid, hstore]

/-- Stepping lemma: a parsed header whose kid is absent from the store. -/
theorem v_unknown_kid {Req : Type} (validation : Validation)
    (jwks : List (String × DecodingKey)) (req : Req) (hd : Header)
    (p : Payload) (sig : Signature) (now : Nat) (kid : String)
    (hkid : hd.kid = some kid) (hstore : jwks.lookup kid = none) :
    v validation jwks req (.parsed hd p sig) now
      = .error (.badRequest "invalid kid in token") := by
  unfold v
  simp only [decode_header, map_err, hkid, hstore]

/-- Decoding an honestly encoded, in-window token succeeds with the encoded
claims. -/
theorem decode_encode_ok (validation : Validation) (hd : Header)
    (claims : Claims) (priv : EncodingKey) (pub : DecodingKey) (now : Nat)
    (hpair : pub.pairId = priv.pairId)
    (halg : hd.alg ∈ validation.algorithms)
    (hnbf : claims.nbf ≤ now)
    (hexp : now < claims.exp)
    (hiss : ∀ i, validation.iss = some i → claims.iss = i) :
    decode (encode hd claims priv) pub validation now = .ok ⟨hd, claims⟩ := by
  have hverify : verify ⟨priv.pairId, hd.alg, hd, claims_to_payload claims⟩
      hd (claims_to_payload claims) pub hd.alg = true := by
    simp [verify, hpair]
  have hde : deserialize_claims (claims_to_payload claims) = .ok claims := by
    simp [deserialize_claims, claims_to_payload]
  have hce : check_exp (claims_to_payload claims) validation now = .ok () := by
    unfold check_exp
    have : ¬ claims.exp < now - validation.leeway := by omega
    simp [claims_to_payload, this]
  have hcn : check_nbf (claims_to_payload claims) validation now = .ok () := by
    unfold check_nbf
    have : ¬ claims.nbf > now + validation.leeway := by omega
    simp [claims_to_payload, this]
  have hci : check_iss (claims_to_payload claims) validation = .ok () := by
    unfold check_iss
    cases h : validation.iss with
    | none => rfl
    | some i => simp [claims_to_payload, hiss i h]
  simp only [encode, decode]
  rw [if_pos halg, hverify]
  simp only [if_true, hde, validate_claims, hce, hcn, hci]

end ActixJwt

namespace ActixJwt

/-- Stepping lemma: a parsed header without a kid. -/
theorem v_missing_kid {Req : Type} (validation : Validation)
    (jwks : List (String × DecodingKey)) (req : Req) (hd : Header)
    (p : Payload) (sig : Signature) (now : Nat) (hkid : hd.kid = none) :
    v validation jwks req (.parsed hd p sig) now
      = .error (.badRequest "token missing kid") := by
  unfold v
  simp only [decode_header, map_err, hkid]

/-- A successful `decode` entails that typed deserialization of the payload
succeeded with the returned claims. -/
theorem decode_ok_deserialize_ok {hd : Header} {p : Payload}
    {sig : Signature} {key : DecodingKey} {validation : Validation}
    {now : Nat} {td : TokenData}
    (h : decode (.parsed hd p sig) key validation now = .ok td) :
    deserialize_claims p = .ok td.claims := by
  simp only [decode] at h
  split at h
  · split at h
    · cases hde : deserialize_claims p with
      | error e => rw [hde] at h; simp at h
      | ok c =>
        rw [hde] at h
        cases hvc : validate_claims p validation now with
        | error e => rw [hvc] at h; simp at h
        | ok u =>
          rw [hvc] at h
          cases h
          rfl
    · simp at h
  · simp at h

/-- Sample key store of the repository's test: the single pair 0 stored
under kid `"0"`. -/
def sampleStore : List (String × DecodingKey) := [("0", ⟨0⟩)]

/-- Sample policy of the repository's test: `Validation::new(RS256)`. -/
def samplePolicy : Validation := Validation.new .RS256

/-- Header of the repository's test token. -/
def goodHeader : Header := ⟨.RS256, some "0"⟩

/-- Claims of the repository's test token, with `exp` ahead of the sample
evaluation time 50. -/
def goodClaims : Claims := ⟨100, 0, ""⟩

/-- The repository's test token: honestly signed by pair 0 under kid `"0"`. -/
def goodToken : RawToken := encode goodHeader goodClaims ⟨0⟩

/-- A token claiming kid `"0"` but signed by the unrelated pair 1. -/
def badSigToken : RawToken :=
  .parsed goodHeader ⟨some 100, some 0, some ""⟩
    ⟨1, .RS256, goodHeader, ⟨some 100, some 0, some ""⟩⟩

/-- A validly signed token whose kid `"99"` is absent from the store. -/
def unknownKidToken : RawToken := encode ⟨.RS256, some "99"⟩ goodClaims ⟨0⟩

/-- A validly signed token whose `exp` 10 lies before the sample evaluation
time 50. -/
def expiredToken : RawToken := encode goodHeader ⟨10, 0, ""⟩ ⟨0⟩

/-- A validly signed token whose header carries no kid. -/
def noKidToken : RawToken :=
  .parsed ⟨.RS256, none⟩ ⟨some 100, some 0, some ""⟩
    ⟨0, .RS256, ⟨.RS256, none⟩, ⟨some 100, some 0, some ""⟩⟩

/-- A token signed by the stored pair but declaring `RS384` in its header,
against a policy pinning `RS256`. -/
def wrongAlgToken : RawToken := encode ⟨.RS384, some "0"⟩ goodClaims ⟨0⟩

/-- A validly signed token whose payload lacks the `exp` field. -/
def missingExpToken : RawToken :=
  .parsed goodHeader ⟨none, some 0, some ""⟩
    ⟨0, .RS256, goodHeader, ⟨none, some 0, some ""⟩⟩

/-- C1: for every token that is well-formed, carries a kid stored in the
key store, is signed by the stored key's pair under an algorithm the policy
allows, and whose payload satisfies `nbf ≤ now < exp` with an issuer
matching the policy, `v` accepts the request and the decoded claims equal
the claims that were encoded. -/
theorem validate_accepts_valid_token {Req : Type} (req : Req)
    (validation : Validation) (jwks : List (String × DecodingKey))
    (kid : String) (hd : Header) (claims : Claims)
    (priv : EncodingKey) (pub : DecodingKey) (now : Nat)
    (hkid : hd.kid = some kid)
    (hstore : jwks.lookup kid = some pub)
    (hpair : pub.pairId = priv.pairId)
    (halg : hd.alg ∈ validation.algorithms)
    (hnbf : claims.nbf ≤ now)
    (hexp : now < claims.exp)
    (hiss : ∀ i, validation.iss = some i → claims.iss = i) :
    v validation jwks req (encode hd claims priv) now = .ok req ∧
    decode (encode hd claims priv) pub validation now
      = .ok ⟨hd, claims⟩ := by
  have hdec := decode_encode_ok validation hd claims priv pub now hpair halg
    hnbf hexp hiss
  refine ⟨?_, hdec⟩
  have hdec' : decode (RawToken.parsed hd (claims_to_payload claims)
      ⟨priv.pairId, hd.alg, hd, claims_to_payload claims⟩) pub validation now
      = .ok ⟨hd, claims⟩ := hdec
  show v validation jwks req (RawToken.parsed hd (claims_to_payload claims)
      ⟨priv.pairId, hd.alg, hd, claims_to_payload claims⟩) now = .ok req
  rw [v_parsed_step validation jwks req hd (claims_to_payload claims)
      ⟨priv.pairId, hd.alg, hd, claims_to_payload claims⟩ now kid pub hkid
      hstore, hdec']

/-- Witness for C1 at the repository's own test scenario: store
`{"0" ↦ pair 0}`, policy `Validation::new(RS256)`, token signed by pair 0
with kid `"0"`, `exp = 100`, `nbf = 0`, `iss = ""`, evaluated at time 50. -/
theorem validate_accepts_valid_token_witness :
    v samplePolicy sampleStore () goodToken 50 = .ok () ∧
    decode goodToken ⟨0⟩ samplePolicy 50 = .ok ⟨goodHeader, goodClaims⟩ :=
  validate_accepts_valid_token () samplePolicy sampleStore "0" goodHeader
    goodClaims ⟨0⟩ ⟨0⟩ 50 rfl rfl rfl (by decide) (by decide) (by decide)
    (fun i h => by simp [samplePolicy, Validation.new] at h)

end ActixJwt

namespace ActixJwt

/-- C2 counterexample: at the sample store and policy, a validly signed
token whose kid `"99"` is absent from the store is answered with
`ErrorBadRequest "invalid kid in token"` — a client-error status, not an
authentication-failure one — while a bad-signature token is answered with
`ErrorUnauthorized "invalid token"`; the two responses differ, so an
unknown kid is externally distinguishable from a bad signature. -/
theorem unknown_kid_unauthorized_cex :
    v samplePolicy sampleStore () unknownKidToken 50
      = .error (.badRequest "invalid kid in token") ∧
    v samplePolicy sampleStore () badSigToken 50
      = .error (.unauthorized "invalid token") ∧
    AppError.badRequest "invalid kid in token"
      ≠ AppError.unauthorized "invalid token" :=
  ⟨rfl, rfl, by decide⟩

/-- C2 amended: a token whose kid is absent from the store is answered with
the client-error response `ErrorBadRequest "invalid kid in token"`, while
any token whose kid resolves but whose decode fails (bad signature or bad
claims) is answered with `ErrorUnauthorized "invalid token"`; the two
responses differ, so an unknown kid is externally distinguishable from a
bad signature. -/
theorem unknown_kid_client_error_distinct {Req : Type} (req : Req)
    (validation : Validation) (jwks : List (String × DecodingKey))
    (now : Nat)
    (hd₁ : Header) (p₁ : Payload) (sig₁ : Signature) (kid₁ : String)
    (hd₂ : Header) (p₂ : Payload) (sig₂ : Signature) (kid₂ : String)
    (key₂ : DecodingKey) (e₂ : JwtErrorKind)
    (hkid₁ : hd₁.kid = some kid₁) (hstore₁ : jwks.lookup kid₁ = none)
    (hkid₂ : hd₂.kid = some kid₂) (hstore₂ : jwks.lookup kid₂ = some key₂)
    (hdec₂ : decode (.parsed hd₂ p₂ sig₂) key₂ validation now
      = .error e₂) :
    v validation jwks req (.parsed hd₁ p₁ sig₁) now
      = .error (.badRequest "invalid kid in token") ∧
    v validation jwks req (.parsed hd₂ p₂ sig₂) now
      = .error (.unauthorized "invalid token") ∧
    v validation jwks req (.parsed hd₁ p₁ sig₁) now
      ≠ v validation jwks req (.parsed hd₂ p₂ sig₂) now := by
  have h1 := v_unknown_kid validation jwks req hd₁ p₁ sig₁ now kid₁ hkid₁
    hstore₁
  have h2 : v validation jwks req (.parsed hd₂ p₂ sig₂) now
      = .error (.unauthorized "invalid token") := by
    rw [v_parsed_step validation jwks req hd₂ p₂ sig₂ now kid₂ key₂ hkid₂
      hstore₂, hdec₂]
  exact ⟨h1, h2, by simp [h1, h2]⟩

/-- Witness for the amended C2 at the sample store: the unknown-kid token
and the bad-signature token of the fixtures. -/
theorem unknown_kid_client_error_distinct_witness :
    v samplePolicy sampleStore () unknownKidToken 50
      = .error (.badRequest "invalid kid in token") ∧
    v samplePolicy sampleStore () badSigToken 50
      = .error (.unauthorized "invalid token") ∧
    v samplePolicy sampleStore () unknownKidToken 50
      ≠ v samplePolicy sampleStore () badSigToken 50 :=
  unknown_kid_client_error_distinct () samplePolicy sampleStore 50
    ⟨.RS256, some "99"⟩ (claims_to_payload goodClaims)
    ⟨0, .RS256, ⟨.RS256, some "99"⟩, claims_to_payload goodClaims⟩ "99"
    goodHeader ⟨some 100, some 0, some ""⟩
    ⟨1, .RS256, goodHeader, ⟨some 100, some 0, some ""⟩⟩ "0" ⟨0⟩
    .InvalidSignature rfl rfl rfl rfl rfl

/-- C3 counterexample: an invalid-signature token and an invalid-claims
(expired) token — two distinct failure causes, as the distinct internal
decode errors show — are both answered with exactly the same response
`ErrorUnauthorized "invalid token"`: these two failure branches are
collapsed into one generic error. -/
theorem collapsed_failure_codes_cex :
    decode badSigToken ⟨0⟩ samplePolicy 50 = .error .InvalidSignature ∧
    decode expiredToken ⟨0⟩ samplePolicy 50 = .error .ExpiredSignature ∧
    v samplePolicy sampleStore () badSigToken 50
      = .error (.unauthorized "invalid token") ∧
    v samplePolicy sampleStore () expiredToken 50
      = v samplePolicy sampleStore () badSigToken 50 :=
  ⟨rfl, rfl, rfl, rfl⟩

/-- C3 amended: malformed token, missing kid and unknown kid are reported
with three pairwise-distinct client-error reason codes, and every
client-error code differs from the authentication-failure code; but
invalid signature and invalid claims are collapsed into the single
response `ErrorUnauthorized "invalid token"`. -/
theorem failure_reason_codes {Req : Type} (req : Req)
    (validation : Validation) (jwks : List (String × DecodingKey))
    (now : Nat) (s : String)
    (hd₂ : Header) (p₂ : Payload) (sig₂ : Signature)
    (hd₃ : Header) (p₃ : Payload) (sig₃ : Signature) (kid₃ : String)
    (hd₄ : Header) (p₄ : Payload) (sig₄ : Signature) (kid₄ : String)
    (key₄ : DecodingKey)
    (hd₅ : Header) (p₅ : Payload) (sig₅ : Signature) (kid₅ : String)
    (key₅ : DecodingKey) (e₅ : JwtErrorKind)
    (hkid₂ : hd₂.kid = none)
    (hkid₃ : hd₃.kid = some kid₃) (hstore₃ : jwks.lookup kid₃ = none)
    (hkid₄ : hd₄.kid = some kid₄) (hstore₄ : jwks.lookup kid₄ = some key₄)
    (hdec₄ : decode (.parsed hd₄ p₄ sig₄) key₄ validation now
      = .error .InvalidSignature)
    (hkid₅ : hd₅.kid = some kid₅) (hstore₅ : jwks.lookup kid₅ = some key₅)
    (hdec₅ : decode (.parsed hd₅ p₅ sig₅) key₅ validation now
      = .error e₅)
    (_hclaims₅ : e₅ = .ExpiredSignature ∨ e₅ = .ImmatureSignature
      ∨ e₅ = .InvalidIssuer) :
    v validation jwks req (.malformed s) now
      = .error (.badRequest "bad token") ∧
    v validation jwks req (.parsed hd₂ p₂ sig₂) now
      = .error (.badRequest "token missing kid") ∧
    v validation jwks req (.parsed hd₃ p₃ sig₃) now
      = .error (.badRequest "invalid kid in token") ∧
    v validation jwks req (.parsed hd₄ p₄ sig₄) now
      = .error (.unauthorized "invalid token") ∧
    v validation jwks req (.parsed hd₅ p₅ sig₅) now
      = .error (.unauthorized "invalid token") ∧
    (AppError.badRequest "bad token"
        ≠ AppError.badRequest "token missing kid" ∧
      AppError.badRequest "bad token"
        ≠ AppError.badRequest "invalid kid in token" ∧
      AppError.badRequest "token missing kid"
        ≠ AppError.badRequest "invalid kid in token" ∧
      ∀ m m' : String, AppError.badRequest m ≠ AppError.unauthorized m') ∧
    v validation jwks req (.parsed hd₄ p₄ sig₄) now
      = v validation jwks req (.parsed hd₅ p₅ sig₅) now := by
  have h4 : v validation jwks req (.parsed hd₄ p₄ sig₄) now
      = .error (.unauthorized "invalid token") := by
    rw [v_parsed_step validation jwks req hd₄ p₄ sig₄ now kid₄ key₄ hkid₄
      hstore₄, hdec₄]
  have h5 : v validation jwks req (.parsed hd₅ p₅ sig₅) now
      = .error (.unauthorized "invalid token") := by
    rw [v_parsed_step validation jwks req hd₅ p₅ sig₅ now kid₅ key₅ hkid₅
      hstore₅, hdec₅]
  refine ⟨rfl, v_missing_kid validation jwks req hd₂ p₂ sig₂ now hkid₂,
    v_unknown_kid validation jwks req hd₃ p₃ sig₃ now kid₃ hkid₃ hstore₃,
    h4, h5, ⟨by decide, by decide, by decide, fun m m' => by simp⟩, ?_⟩
  rw [h4, h5]

/-- Witness for the amended C3 at the sample store, with the malformed,
missing-kid, unknown-kid, bad-signature and expired fixture tokens. -/
theorem failure_reason_codes_witness :
    v samplePolicy sampleStore () (.malformed "x") 50
      = .error (.badRequest "bad token") ∧
    v samplePolicy sampleStore () noKidToken 50
      = .error (.badRequest "token missing kid") ∧
    v samplePolicy sampleStore () unknownKidToken 50
      = .error (.badRequest "invalid kid in token") ∧
    v samplePolicy sampleStore () badSigToken 50
      = .error (.unauthorized "invalid token") ∧
    v samplePolicy sampleStore () expiredToken 50
      = .error (.unauthorized "invalid token") ∧
    (AppError.badRequest "bad token"
        ≠ AppError.badRequest "token missing kid" ∧
      AppError.badRequest "bad token"
        ≠ AppError.badRequest "invalid kid in token" ∧
      AppError.badRequest "token missing kid"
        ≠ AppError.badRequest "invalid kid in token" ∧
      ∀ m m' : String, AppError.badRequest m ≠ AppError.unauthorized m') ∧
    v samplePolicy sampleStore () badSigToken 50
      = v samplePolicy sampleStore () expiredToken 50 :=
  failure_reason_codes () samplePolicy sampleStore 50 "x"
    ⟨.RS256, none⟩ ⟨some 100, some 0, some ""⟩
    ⟨0, .RS256, ⟨.RS256, none⟩, ⟨some 100, some 0, some ""⟩⟩
    ⟨.RS256, some "99"⟩ (claims_to_payload goodClaims)
    ⟨0, .RS256, ⟨.RS256, some "99"⟩, claims_to_payload goodClaims⟩ "99"
    goodHeader ⟨some 100, some 0, some ""⟩
    ⟨1, .RS256, goodHeader, ⟨some 100, some 0, some ""⟩⟩ "0" ⟨0⟩
    goodHeader (claims_to_payload ⟨10, 0, ""⟩)
    ⟨0, .RS256, goodHeader, claims_to_payload ⟨10, 0, ""⟩⟩ "0" ⟨0⟩
    .ExpiredSignature rfl rfl rfl rfl rfl rfl rfl rfl rfl
    (Or.inl rfl)

/-- C4: for every well-formed token whose header kid is absent from the
store, `v` returns the unknown-kid error, for every signature alike: the
store lookup short-circuits before signature verification. -/
theorem unknown_kid_short_circuits {Req : Type} (req : Req)
    (validation : Validation) (jwks : List (String × DecodingKey))
    (now : Nat) (hd : Header) (p : Payload) (kid : String)
    (hkid : hd.kid = some kid) (hstore : jwks.lookup kid = none) :
    ∀ sig : Signature,
      v validation jwks req (.parsed hd p sig) now
        = .error (.badRequest "invalid kid in token") :=
  fun sig => v_unknown_kid validation jwks req hd p sig now kid hkid hstore

/-- Witness for C4: the fixture token with kid `"99"`, absent from the
sample store, carrying a perfectly valid signature by pair 0. -/
theorem unknown_kid_short_circuits_witness :
    (⟨.RS256, some "99"⟩ : Header).kid = some "99" ∧
    sampleStore.lookup "99" = none ∧
    v samplePolicy sampleStore () unknownKidToken 50
      = .error (.badRequest "invalid kid in token") :=
  ⟨rfl, rfl,
    unknown_kid_short_circuits () samplePolicy sampleStore 50
      ⟨.RS256, some "99"⟩ (claims_to_payload goodClaims) "99" rfl rfl
      ⟨0, .RS256, ⟨.RS256, some "99"⟩, claims_to_payload goodClaims⟩⟩

end ActixJwt

namespace ActixJwt

/-- C5: signature verification is gated on the policy's algorithm list,
never on the token header's self-declared algorithm alone: every token
whose header declares an algorithm outside the policy's list is rejected
with `InvalidAlgorithm` — for every signature alike, so even one valid
under the header's algorithm — and `v` answers
`ErrorUnauthorized "invalid token"`. -/
theorem policy_algorithm_authoritative {Req : Type} (req : Req)
    (validation : Validation) (jwks : List (String × DecodingKey))
    (now : Nat) (hd : Header) (p : Payload) (kid : String)
    (key : DecodingKey)
    (hkid : hd.kid = some kid) (hstore : jwks.lookup kid = some key)
    (halg : hd.alg ∉ validation.algorithms) :
    ∀ sig : Signature,
      decode (.parsed hd p sig) key validation now
        = .error .InvalidAlgorithm ∧
      v validation jwks req (.parsed hd p sig) now
        = .error (.unauthorized "invalid token") := by
  intro sig
  have hdec : decode (.parsed hd p sig) key validation now
      = .error .InvalidAlgorithm := by
    simp only [decode]
    rw [if_neg halg]
  refine ⟨hdec, ?_⟩
  rw [v_parsed_step validation jwks req hd p sig now kid key hkid hstore,
    hdec]

/-- Witness for C5: the fixture token declaring `RS384`, signed by the
stored pair 0 genuinely under `RS384`, against the sample `RS256` policy. -/
theorem policy_algorithm_authoritative_witness :
    (Algorithm.RS384 ∉ samplePolicy.algorithms) ∧
    decode wrongAlgToken ⟨0⟩ samplePolicy 50
      = .error .InvalidAlgorithm ∧
    v samplePolicy sampleStore () wrongAlgToken 50
      = .error (.unauthorized "invalid token") :=
  ⟨by decide,
    policy_algorithm_authoritative () samplePolicy sampleStore 50
      ⟨.RS384, some "0"⟩ (claims_to_payload goodClaims) "0" ⟨0⟩ rfl rfl
      (by decide)
      ⟨0, .RS384, ⟨.RS384, some "0"⟩, claims_to_payload goodClaims⟩⟩

/-- C6: every honestly signed token whose `exp` lies in the past beyond
the policy's leeway — `exp < now - leeway` with `exp` validation on — is
rejected: `decode` fails with `ExpiredSignature` although the signature is
valid and the kid resolves to the stored key, and `v` answers
`ErrorUnauthorized "invalid token"`. -/
theorem expired_token_rejected {Req : Type} (req : Req)
    (validation : Validation) (jwks : List (String × DecodingKey))
    (now : Nat) (hd : Header) (claims : Claims) (priv : EncodingKey)
    (pub : DecodingKey) (kid : String)
    (hkid : hd.kid = some kid) (hstore : jwks.lookup kid = some pub)
    (hpair : pub.pairId = priv.pairId)
    (halg : hd.alg ∈ validation.algorithms)
    (hval : validation.validate_exp = true)
    (hexp : claims.exp < now - validation.leeway) :
    decode (encode hd claims priv) pub validation now
      = .error .ExpiredSignature ∧
    v validation jwks req (encode hd claims priv) now
      = .error (.unauthorized "invalid token") := by
  have hverify : verify ⟨priv.pairId, hd.alg, hd, claims_to_payload claims⟩
      hd (claims_to_payload claims) pub hd.alg = true := by
    simp [verify, hpair]
  have hde : deserialize_claims (claims_to_payload claims) = .ok claims := by
    simp [deserialize_claims, claims_to_payload]
  have hce : check_exp (claims_to_payload claims) validation now
      = .error .ExpiredSignature := by
    unfold check_exp
    simp [hval, claims_to_payload, hexp]
  have hdec : decode (encode hd claims priv) pub validation now
      = .error .ExpiredSignature := by
    simp only [encode, decode]
    rw [if_pos halg, hverify]
    simp only [if_true, hde, validate_claims, hce]
  refine ⟨hdec, ?_⟩
  have hdec' : decode (RawToken.parsed hd (claims_to_payload claims)
      ⟨priv.pairId, hd.alg, hd, claims_to_payload claims⟩) pub validation
      now = .error .ExpiredSignature := hdec
  show v validation jwks req (RawToken.parsed hd (claims_to_payload claims)
      ⟨priv.pairId, hd.alg, hd, claims_to_payload claims⟩) now
      = .error (.unauthorized "invalid token")
  rw [v_parsed_step validation jwks req hd (claims_to_payload claims)
      ⟨priv.pairId, hd.alg, hd, claims_to_payload claims⟩ now kid pub hkid
      hstore, hdec']

/-- Witness for C6: the fixture token with `exp = 10`, honestly signed by
the stored pair 0, evaluated at time 50 under the zero-leeway sample
policy. -/
theorem expired_token_rejected_witness :
    (10 : Nat) < 50 - samplePolicy.leeway ∧
    decode expiredToken ⟨0⟩ samplePolicy 50 = .error .ExpiredSignature ∧
    v samplePolicy sampleStore () expiredToken 50
      = .error (.unauthorized "invalid token") :=
  ⟨by decide,
    expired_token_rejected () samplePolicy sampleStore 50 goodHeader
      ⟨10, 0, ""⟩ ⟨0⟩ ⟨0⟩ "0" rfl rfl rfl (by decide) rfl (by decide)⟩

/-- C7: every token string that fails structural parsing of the header is
answered with `ErrorBadRequest "bad token"`, a client-error (bad request)
response. -/
theorem malformed_token_bad_request {Req : Type} (req : Req)
    (validation : Validation) (jwks : List (String × DecodingKey))
    (now : Nat) (s : String) :
    v validation jwks req (.malformed s) now
      = .error (.badRequest "bad token") := rfl

/-- C8: every token whose header parses but carries no kid is answered
with `ErrorBadRequest "token missing kid"`, a client-error (bad request)
response, for every key store and every signature alike: neither the store
nor the signature is consulted. -/
theorem missing_kid_bad_request {Req : Type} (req : Req)
    (validation : Validation) (now : Nat) (hd : Header) (p : Payload)
    (hkid : hd.kid = none) :
    ∀ (sig : Signature) (jwks : List (String × DecodingKey)),
      v validation jwks req (.parsed hd p sig) now
        = .error (.badRequest "token missing kid") :=
  fun sig jwks => v_missing_kid validation jwks req hd p sig now hkid

/-- Witness for C8: the fixture token without a kid, carrying a valid
signature by the stored pair 0, against the sample store. -/
theorem missing_kid_bad_request_witness :
    (⟨.RS256, none⟩ : Header).kid = none ∧
    v samplePolicy sampleStore () noKidToken 50
      = .error (.badRequest "token missing kid") :=
  ⟨rfl,
    missing_kid_bad_request () samplePolicy 50 ⟨.RS256, none⟩
      ⟨some 100, some 0, some ""⟩ rfl
      ⟨0, .RS256, ⟨.RS256, none⟩, ⟨some 100, some 0, some ""⟩⟩
      sampleStore⟩

end ActixJwt

namespace ActixJwt

/-- C9: validation is deterministic, idempotent and mutation-free: an
invocation of the closure built by `validator` leaves its captured state
(policy and key store) unchanged, a second invocation with the same inputs
at the same time yields the same verdict, and the verdict depends on the
key store only through its lookup mapping — two stores with the same
lookup results validate every token identically. -/
theorem validator_pure_idempotent {Req : Type} (req : Req)
    (s : ValidatorState) (token : RawToken) (now : Nat)
    (jwks' : List (String × DecodingKey))
    (hlook : ∀ k : String, s.jwks.lookup k = jwks'.lookup k) :
    (call_validator s req token now).2 = s ∧
    (call_validator ((call_validator s req token now).2) req token now).1
      = (call_validator s req token now).1 ∧
    validator s.validation s.jwks req token now
      = validator s.validation jwks' req token now := by
  refine ⟨rfl, rfl, ?_⟩
  unfold validator v
  cases token with
  | malformed str => rfl
  | parsed hd p sig =>
    simp only [decode_header, map_err]
    cases hd.kid with
    | none => rfl
    | some kid => simp only [hlook]

/-- Witness for C9 at the sample state and the repository's test token. -/
theorem validator_pure_idempotent_witness :
    (call_validator ⟨samplePolicy, sampleStore⟩ () goodToken 50).2
      = ⟨samplePolicy, sampleStore⟩ ∧
    (call_validator
        ((call_validator ⟨samplePolicy, sampleStore⟩ () goodToken 50).2)
        () goodToken 50).1
      = (call_validator ⟨samplePolicy, sampleStore⟩ () goodToken 50).1 ∧
    validator samplePolicy sampleStore () goodToken 50
      = validator samplePolicy sampleStore () goodToken 50 :=
  validator_pure_idempotent () ⟨samplePolicy, sampleStore⟩ goodToken 50
    sampleStore (fun _ => rfl)

/-- C10: every well-formed token whose kid resolves to a stored key but
whose payload lacks `exp`, `nbf` or `iss` is rejected — typed
deserialization into `Claims` fails, so `decode` cannot succeed — and `v`
answers `ErrorUnauthorized "invalid token"`, for every signature alike,
valid ones included. -/
theorem missing_claim_fields_unauthorized {Req : Type} (req : Req)
    (validation : Validation) (jwks : List (String × DecodingKey))
    (now : Nat) (hd : Header) (p : Payload) (sig : Signature)
    (kid : String) (key : DecodingKey)
    (hkid : hd.kid = some kid) (hstore : jwks.lookup kid = some key)
    (hmiss : p.exp = none ∨ p.nbf = none ∨ p.iss = none) :
    deserialize_claims p = .error .JsonError ∧
    v validation jwks req (.parsed hd p sig) now
      = .error (.unauthorized "invalid token") := by
  have hde : deserialize_claims p = .error .JsonError := by
    cases hx : p.exp <;> cases hy : p.nbf <;> cases hz : p.iss <;>
      simp_all [deserialize_claims]
  refine ⟨hde, ?_⟩
  rw [v_parsed_step validation jwks req hd p sig now kid key hkid hstore]
  cases hd2 : decode (.parsed hd p sig) key validation now with
  | error e => rfl
  | ok td =>
    have := decode_ok_deserialize_ok hd2
    rw [hde] at this
    simp at this

/-- Witness for C10: the fixture token lacking `exp`, validly signed by
the stored pair 0 under the sample store and policy. -/
theorem missing_claim_fields_unauthorized_witness :
    (Payload.mk none (some 0) (some "")).exp = none ∧
    deserialize_claims ⟨none, some 0, some ""⟩ = .error .JsonError ∧
    v samplePolicy sampleStore () missingExpToken 50
      = .error (.unauthorized "invalid token") := by
  have h := missing_claim_fields_unauthorized () samplePolicy sampleStore
    50 goodHeader ⟨none, some 0, some ""⟩
    ⟨0, .RS256, goodHeader, ⟨none, some 0, some ""⟩⟩ "0" ⟨0⟩ rfl rfl
    (Or.inl rfl)
  exact ⟨rfl, h.1, h.2⟩

end ActixJwt
